import Mathlib

/-!
# Verification of the conference booking core (`src/app.py`)

A shallow embedding of the booking/waitlist allocation engine of `app.py`.
The Python module keeps four global dicts (`users`, `conferences`,
`bookings`, `waitlists`); we model them as insertion-ordered association
lists inside an `AppState` record.  Python `dict` preserves insertion
order, so appending a freshly generated key at the end and scanning with
`List.find?` reproduces `dict.values()` iteration exactly.

Identifiers produced by `uuid.uuid4()` are opaque and globally fresh; we
model the generator as a counter `nextId : Nat` carried in the state, so
every generated booking/waitlist id is a `Nat`.  Clock readings
(`datetime.utcnow()`) are passed in as an integer `now`, measured in
seconds; `timedelta(hours=1)` is `3600`.

Unhandled Python exceptions matter here: `cancel_booking` calls
`process_waitlist(conference)` with the conference *dict* although the
callee's parameter is a conference *name*; `conferences.get(<dict>)`
raises `TypeError: unhashable type` because a dict is unhashable, Flask
turns the uncaught exception into an HTTP 500, and the module-level dicts
keep every mutation made before the raise.  Likewise a Flask view that
falls off the end returns `None`, which Flask rejects with an HTTP 500.
Both outcomes are modelled as explicit `Resp` constructors (`crash`,
`noResponse`) paired with the state as mutated so far.
-/

namespace ConfBooking

/-- A confirmed booking, as stored in the `bookings` dict
(`UserID`, `Conference`, `timestamp` fields; the redundant `booking_id`
field always equals the key and is omitted). -/
structure Booking where
  userId : String
  conference : String
  timestamp : Int
deriving Repr, DecidableEq

/-- A waitlist entry, as stored in the `waitlists` dict. -/
structure WaitlistEntry where
  userId : String
  conference : String
  timestamp : Int
deriving Repr, DecidableEq

/-- The mutable part of a conference record: `available_slots` and the
`waitlist` queue of waitlist-entry ids.  The static fields (location,
topics, timestamps) are never read by the allocation engine and are
omitted. -/
structure Conference where
  availableSlots : Int
  waitlist : List Nat
deriving Repr, DecidableEq

/-- The four module-level dicts of `app.py`, plus the id-generator
counter. -/
structure AppState where
  users : List String
  conferences : List (String × Conference)
  bookings : List (Nat × Booking)
  waitlists : List (Nat × WaitlistEntry)
  nextId : Nat
deriving Repr, DecidableEq

/-- Outcome of one HTTP request, as the Flask layer reports it. -/
inductive Resp where
  /-- HTTP 200 carrying the new booking id (from `book_conference`). -/
  | booked (id : Nat)
  /-- HTTP 200: added to waitlist, carrying the new waitlist id. -/
  | waitlisted (id : Nat)
  /-- HTTP 200: booking confirmed from waitlist, carrying the new booking id. -/
  | confirmed (id : Nat)
  /-- HTTP 200: booking canceled successfully. -/
  | canceled
  /-- HTTP 200: removed from waitlist successfully. -/
  | removedFromWaitlist
  /-- HTTP 404: conference not found. -/
  | errConferenceNotFound
  /-- HTTP 404: user id not found. -/
  | errUserNotFound
  /-- HTTP 400: user already has a booking for this conference; reports the
  id of the existing booking. -/
  | errDuplicateBooking (id : Nat)
  /-- HTTP 400: no slots available. -/
  | errNoSlots
  /-- HTTP 404: waitlist entry not found. -/
  | errWaitlistNotFound
  /-- HTTP 400: confirmation window expired, moved to end of waitlist. -/
  | errExpired
  /-- An uncaught Python exception inside the view; Flask answers HTTP 500.
  The state keeps all mutations performed before the raise. -/
  | crash
  /-- The view function returned `None`; Flask answers HTTP 500. -/
  | noResponse
deriving Repr, DecidableEq

/-- Models `del d[k]` and `d.pop(k)` on a Python dict: drop the pair keyed `k`. -/
def eraseKey {α β : Type} [DecidableEq α] (l : List (α × β)) (k : α) :
    List (α × β) :=
  l.filter (fun p => p.1 ≠ k)

/-- Overwrite the conference stored under `name` (models in-place mutation
of the dict shared between `conferences[name]` and the local alias). -/
def setConf (s : AppState) (name : String) (c : Conference) : AppState :=
  { s with conferences :=
      s.conferences.map (fun p => if p.1 = name then (p.1, c) else p) }

/-- Models `POST /book_conference` (`book_conference` in `app.py`, lines 118-167).
Checks conference existence, user existence, the duplicate-booking scan
over `bookings.values()`, then either waitlists (slots exhausted) or books
(decrementing `available_slots`). -/
def book_conference (now : Int) (s : AppState) (confName uid : String) :
    Resp × AppState :=
  match s.conferences.lookup confName with
  | none => (Resp.errConferenceNotFound, s)
  | some conf =>
    if uid ∈ s.users then
      match s.bookings.find?
          (fun p => p.2.userId == uid && p.2.conference == confName) with
      | some p => (Resp.errDuplicateBooking p.1, s)
      | none =>
        if conf.availableSlots ≤ 0 then
          let wid := s.nextId
          let s' := { s with
            waitlists := s.waitlists ++ [(wid, ⟨uid, confName, now⟩)],
            nextId := s.nextId + 1 }
          (Resp.waitlisted wid,
           setConf s' confName { conf with waitlist := conf.waitlist ++ [wid] })
        else
          let bid := s.nextId
          let s' := { s with
            bookings := s.bookings ++ [(bid, ⟨uid, confName, now⟩)],
            nextId := s.nextId + 1 }
          (Resp.booked bid,
           setConf s' confName
             { conf with availableSlots := conf.availableSlots - 1 })
    else (Resp.errUserNotFound, s)

/-- Models `POST /confirm_waitlist_booking` (`confirm_waitlist_booking` in
`app.py`, lines 169-208).  On the expired path the source runs
`conference["waitlist"].remove(waitlist_id)` which raises `ValueError`
when the id is absent from the queue, hence the `crash` arm; `remove`
deletes the first occurrence, like `List.erase`.  On success the entry is
popped from the `waitlists` dict only — the id stays in the conference's
queue. -/
def confirm_waitlist_booking (now : Int) (s : AppState) (wid : Nat) :
    Resp × AppState :=
  match s.waitlists.lookup wid with
  | none => (Resp.errWaitlistNotFound, s)
  | some entry =>
    match s.conferences.lookup entry.conference with
    | none => (Resp.errConferenceNotFound, s)
    | some conf =>
      if conf.availableSlots ≤ 0 then (Resp.errNoSlots, s)
      else if now - entry.timestamp > 3600 then
        if wid ∈ conf.waitlist then
          (Resp.errExpired,
           setConf s entry.conference
             { conf with waitlist := conf.waitlist.erase wid ++ [wid] })
        else (Resp.crash, s)
      else
        let bid := s.nextId
        let s' := { s with
          bookings := s.bookings ++ [(bid, ⟨entry.userId, entry.conference, now⟩)],
          waitlists := eraseKey s.waitlists wid,
          nextId := s.nextId + 1 }
        (Resp.confirmed bid,
         setConf s' entry.conference
           { conf with availableSlots := conf.availableSlots - 1 })

/-- The `while` loop of `process_waitlist` (`app.py`, lines 221-249),
parameterised over the pieces of state it mutates: the conference's queue
and slot counter, and the global `bookings`/`waitlists` dicts plus the id
counter.  Returns the final `(queue, slots, bookings, waitlists, nextId)`.
A popped id whose `waitlists.get` lookup is missing takes the `else`
branch of the source: it is appended back to the queue and the loop
breaks.  An entry's `timestamp` field is always a (truthy) datetime, so
the `waitlist_entry.get("timestamp")` guard of line 226 never fails. -/
def processLoop (now : Int) (confName : String) :
    List Nat → Int → List (Nat × Booking) → List (Nat × WaitlistEntry) → Nat →
    List Nat × Int × List (Nat × Booking) × List (Nat × WaitlistEntry) × Nat
  | [], slots, bks, wls, nid => ([], slots, bks, wls, nid)
  | wid :: rest, slots, bks, wls, nid =>
    if slots > 0 then
      match wls.lookup wid with
      | some e =>
        if now - e.timestamp > 3600 then
          processLoop now confName rest (slots - 1)
            (bks ++ [(nid, ⟨e.userId, confName, now⟩)])
            (eraseKey wls wid) (nid + 1)
        else (rest ++ [wid], slots, bks, wls, nid)
      | none => (rest ++ [wid], slots, bks, wls, nid)
    else (wid :: rest, slots, bks, wls, nid)

/-- Models `process_waitlist(conference_name)` (`app.py`, lines 212-249) as
called with a proper conference-name string.  (The only call site in the
source, inside `cancel_booking`, instead passes the conference dict and
crashes; see `cancel_booking`.) -/
def process_waitlist (now : Int) (s : AppState) (confName : String) :
    AppState :=
  match s.conferences.lookup confName with
  | none => s
  | some conf =>
    let r := processLoop now confName conf.waitlist conf.availableSlots
      s.bookings s.waitlists s.nextId
    setConf { s with bookings := r.2.2.1, waitlists := r.2.2.2.1,
                     nextId := r.2.2.2.2 }
      confName { conf with waitlist := r.1, availableSlots := r.2.1 }

/-- Models `POST /cancel_booking` (`cancel_booking` in `app.py`, lines 252-279).

Booking branch: `available_slots` is incremented first; if the queue is
non-empty the source then calls `process_waitlist(conference)` passing
the conference *dict* where the callee expects a *name*, so
`conferences.get(<dict>)` raises `TypeError: unhashable type: 'dict'`
(`crash`): the slot increment survives but `del bookings[booking_id]` is
never reached.  If instead the booking's conference is missing,
`None["available_slots"]` raises (`crash`, state untouched).  Only with
an empty queue does the deletion complete.

Waitlist branch: the entry is deleted from the `waitlists` dict; its id
is left in the conference's queue.

Neither branch matching: the view returns `None` (`noResponse`). -/
def cancel_booking (s : AppState) (bid : Nat) : Resp × AppState :=
  match s.bookings.lookup bid with
  | some booking =>
    match s.conferences.lookup booking.conference with
    | none => (Resp.crash, s)
    | some conf =>
      let s' := setConf s booking.conference
        { conf with availableSlots := conf.availableSlots + 1 }
      if conf.waitlist ≠ [] then (Resp.crash, s')
      else (Resp.canceled, { s' with bookings := eraseKey s'.bookings bid })
  | none =>
    match s.waitlists.lookup bid with
    | some _ =>
      (Resp.removedFromWaitlist, { s with waitlists := eraseKey s.waitlists bid })
    | none => (Resp.noResponse, s)

/-- Number of active bookings recorded for conference `c`. -/
def activeBookingsFor (s : AppState) (c : String) : Nat :=
  (s.bookings.filter (fun p => p.2.conference == c)).length

/-- Number of active bookings for the pair `(uid, c)`. -/
def bookingsForPair (s : AppState) (uid c : String) : Nat :=
  (s.bookings.filter
    (fun p => p.2.userId == uid && p.2.conference == c)).length

/-- Field `available_slots` of conference `c`, when present. -/
def confSlots (s : AppState) (c : String) : Option Int :=
  (s.conferences.lookup c).map Conference.availableSlots

/-- Queue of conference `c`, when present. -/
def confQueue (s : AppState) (c : String) : Option (List Nat) :=
  (s.conferences.lookup c).map Conference.waitlist

/-- Error responses that the spec's §7 taxonomy lists as returned values
(as opposed to successes and the two HTTP-500 outcomes). -/
def isStoreError : Resp → Bool
  | .errConferenceNotFound => true
  | .errUserNotFound => true
  | .errDuplicateBooking _ => true
  | .errNoSlots => true
  | .errWaitlistNotFound => true
  | .errExpired => true
  | _ => false

/-! ## Helper lemmas -/

theorem mem_of_lookup_eq_some {α β : Type} [BEq α] [LawfulBEq α]
    {l : List (α × β)} {k : α} {v : β} (h : l.lookup k = some v) :
    (k, v) ∈ l := by
  induction l with
  | nil => simp [List.lookup] at h
  | cons p t ih =>
    obtain ⟨a, b⟩ := p
    rw [List.lookup_cons] at h
    by_cases hk : k == a
    · simp only [hk] at h
      cases h
      have : k = a := eq_of_beq hk
      subst this
      exact List.mem_cons_self _ _
    · simp only [Bool.not_eq_true] at hk
      simp only [hk] at h
      exact List.mem_cons_of_mem _ (ih h)

theorem lookup_setList (l : List (String × Conference)) (name : String)
    (c : Conference) (k : String) :
    (l.map (fun p => if p.1 = name then (p.1, c) else p)).lookup k =
      if k = name then (l.lookup name).map (fun _ => c)
      else l.lookup k := by
  induction l with
  | nil => simp [List.lookup]
  | cons p t ih =>
    obtain ⟨a, b⟩ := p
    by_cases hp : a = name
    · subst hp
      by_cases hk : k = a
      · subst hk
        simp [List.lookup_cons]
      · simp only [List.map_cons, if_pos rfl, if_true, List.lookup_cons,
          beq_false_of_ne hk, ih, if_neg hk]
    · by_cases hk : k = a
      · subst hk
        simp only [List.map_cons, if_neg hp, List.lookup_cons,
          beq_self_eq_true, if_neg hp]
      · have hna : ¬ name = a := fun h => hp h.symm
        simp only [List.map_cons, if_neg hp, List.lookup_cons,
          beq_false_of_ne hk, ih]
        by_cases hkn : k = name
        · simp only [if_pos hkn, List.lookup_cons, beq_false_of_ne hna]
        · simp only [if_neg hkn]

theorem setConf_lookup (s : AppState) (name : String) (c : Conference)
    (k : String) :
    (setConf s name c).conferences.lookup k =
      if k = name then (s.conferences.lookup name).map (fun _ => c)
      else s.conferences.lookup k :=
  lookup_setList s.conferences name c k

theorem setConf_users (s : AppState) (name : String) (c : Conference) :
    (setConf s name c).users = s.users := rfl

theorem setConf_bookings (s : AppState) (name : String) (c : Conference) :
    (setConf s name c).bookings = s.bookings := rfl

theorem setConf_waitlists (s : AppState) (name : String) (c : Conference) :
    (setConf s name c).waitlists = s.waitlists := rfl

/-! ## Concrete scenario states

The capacity-1 scenario of the spec's §8: one conference `"c"` provisioned
with one slot, users `"A"` and `"B"` registered.  All requests happen at
clock reading `0`. -/

/-- Fresh state right after provisioning: conference `"c"` with
`available_slots = 1`, empty waitlist, no bookings. -/
def cap1State : AppState :=
  { users := ["A", "B"], conferences := [("c", ⟨1, []⟩)],
    bookings := [], waitlists := [], nextId := 0 }

/-- After user A books: booking id `0`, slots `0`. -/
def cap1AfterBookA : AppState := (book_conference 0 cap1State "c" "A").2

/-- After user B books: slots were exhausted, so B got waitlist entry `1`. -/
def cap1AfterBookB : AppState := (book_conference 0 cap1AfterBookA "c" "B").2

/-- After cancelling A's booking `0` (the waitlist is non-empty, so the
`process_waitlist(conference)` call raises and the view crashes). -/
def cap1AfterCancel : AppState := (cancel_booking cap1AfterBookB 0).2

/-! ## C1: conservation -/

/-- C1.  The conservation invariant
`availableSlots(c) + |{active bookings for c}| = initialCapacity(c)` is
broken by the code: in the capacity-1 scenario (A books, B is waitlisted,
A's booking is cancelled), `cancel_booking` increments `available_slots`
and then crashes on `process_waitlist(conference)` — passing the
conference dict where a name is expected raises `TypeError` — before
`del bookings[booking_id]` runs.  The final state has one available slot
*and* one active booking for `"c"`, so the sum is `2`, not the provisioned
capacity `1`. -/
theorem conservation_violated_by_crashing_cancel :
    (cancel_booking cap1AfterBookB 0).1 = Resp.crash ∧
    confSlots cap1AfterCancel "c" = some 1 ∧
    activeBookingsFor cap1AfterCancel "c" = 1 ∧
    (confSlots cap1AfterCancel "c").getD 0 +
      (activeBookingsFor cap1AfterCancel "c" : Int) ≠ 1 := by
  decide

/-! ## C2: cancellation with a non-empty waitlist -/

/-- C2.  In the spec's capacity-1 scenario, cancelling A's booking is
supposed to delete the booking, run promotion, give B a Booking and
return slots to 0.  The code instead passes the conference *dict* to
`process_waitlist` (whose parameter is a conference *name*), so
`conferences.get(<dict>)` raises `TypeError`: the call answers HTTP 500,
A's booking survives, B gets nothing, and `available_slots` is left at
`1`. -/
theorem cancel_with_waitlist_crashes :
    (cancel_booking cap1AfterBookB 0).1 = Resp.crash ∧
    cap1AfterCancel.bookings.lookup 0 =
      some { userId := "A", conference := "c", timestamp := 0 } ∧
    bookingsForPair cap1AfterCancel "B" "c" = 0 ∧
    confSlots cap1AfterCancel "c" = some 1 := by
  decide

/-! ## C3: cancellation of an unknown id -/

/-- C3.  The source's `cancel_booking` has no `else` branch: when the id
matches neither a booking nor a waitlist entry the view falls off the end
and returns `None`, which Flask rejects with an HTTP 500 — not the
`NotFound` error value the spec requires.  Cancelling booking `0` twice
(queue empty, so the first call succeeds) hits exactly this: the second
call yields the `None` fall-through. -/
theorem cancel_unknown_id_returns_none :
    (cancel_booking cap1AfterBookA 0).1 = Resp.canceled ∧
    (cancel_booking (cancel_booking cap1AfterBookA 0).2 0).1 =
      Resp.noResponse ∧
    (cancel_booking (cancel_booking cap1AfterBookA 0).2 0).2 =
      (cancel_booking cap1AfterBookA 0).2 ∧
    (cancel_booking cap1State 99).1 = Resp.noResponse := by
  decide

/-! ## C4: successful waitlist confirmation -/

/-- A state with one live waitlist entry `5` for user `"B"` on conference
`"c"`, which has one open slot and queue `[5]`. -/
def c4State : AppState :=
  { users := ["B"], conferences := [("c", ⟨1, [5]⟩)],
    bookings := [], waitlists := [(5, ⟨"B", "c", 0⟩)], nextId := 9 }

/-- C4 counterexample.  A successful confirmation pops the entry from the
`waitlists` dict only: the id stays in the conference's `waitlist` queue
(here the queue is still `[5]` afterwards), contradicting the claim that
the entry is removed "both from the waitlist store and from the
conference's waitlist queue". -/
theorem confirm_success_leaves_queue_id :
    (confirm_waitlist_booking 10 c4State 5).1 = Resp.confirmed 9 ∧
    (confirm_waitlist_booking 10 c4State 5).2.waitlists.lookup 5 = none ∧
    confQueue (confirm_waitlist_booking 10 c4State 5).2 "c" = some [5] := by
  decide

/-- C4 amended.  For every live waitlist entry whose confirmation is
accepted (conference exists, `available_slots > 0`, within the 1-hour
window), `confirm_waitlist_booking` returns the freshly generated booking
id, appends a Booking for the entry's user, decrements `available_slots`,
and deletes the entry from the waitlist store — while the conference's
queue is left unchanged, so the confirmed id lingers there as an orphan. -/
theorem confirm_success_spec (now : Int) (s : AppState) (wid : Nat)
    (entry : WaitlistEntry) (conf : Conference)
    (hw : s.waitlists.lookup wid = some entry)
    (hc : s.conferences.lookup entry.conference = some conf)
    (hs : 0 < conf.availableSlots)
    (ht : now - entry.timestamp ≤ 3600) :
    (confirm_waitlist_booking now s wid).1 = Resp.confirmed s.nextId ∧
    (confirm_waitlist_booking now s wid).2.bookings =
      s.bookings ++ [(s.nextId, ⟨entry.userId, entry.conference, now⟩)] ∧
    (confirm_waitlist_booking now s wid).2.waitlists =
      eraseKey s.waitlists wid ∧
    confSlots (confirm_waitlist_booking now s wid).2 entry.conference =
      some (conf.availableSlots - 1) ∧
    confQueue (confirm_waitlist_booking now s wid).2 entry.conference =
      some conf.waitlist := by
  have hs' : ¬ conf.availableSlots ≤ 0 := not_le.mpr hs
  have ht' : ¬ now - entry.timestamp > 3600 := not_lt.mpr ht
  simp only [confirm_waitlist_booking, hw, hc, hs', ht', if_false,
    confSlots, confQueue, setConf_lookup, if_pos rfl, ite_false]
  simp [setConf, hc]

/-- C4 witness: the amended theorem applied to the concrete `c4State`. -/
theorem confirm_success_spec_witness :
    (confirm_waitlist_booking 10 c4State 5).2.waitlists =
      eraseKey c4State.waitlists 5 ∧
    confQueue (confirm_waitlist_booking 10 c4State 5).2 "c" = some [5] :=
  ⟨(confirm_success_spec 10 c4State 5 ⟨"B", "c", 0⟩ ⟨1, [5]⟩ (by decide)
      (by decide) (by decide) (by decide)).2.2.1,
   (confirm_success_spec 10 c4State 5 ⟨"B", "c", 0⟩ ⟨1, [5]⟩ (by decide)
      (by decide) (by decide) (by decide)).2.2.2.2⟩

/-! ## C5: expired waitlist confirmation -/

/-- C5.  Confirming a live entry that is past the 1-hour window while
slots are available fails with the expired error, moves the id from its
queue position to the tail (`erase` then append, matching
`list.remove` followed by `append`), leaves the entry itself — and in
particular its `timestamp` — untouched in the waitlist store, and touches
neither bookings nor `available_slots`. -/
theorem confirm_expired_requeues_entry (now : Int) (s : AppState) (wid : Nat)
    (entry : WaitlistEntry) (conf : Conference)
    (hw : s.waitlists.lookup wid = some entry)
    (hc : s.conferences.lookup entry.conference = some conf)
    (hs : 0 < conf.availableSlots)
    (ht : now - entry.timestamp > 3600)
    (hq : wid ∈ conf.waitlist) :
    (confirm_waitlist_booking now s wid).1 = Resp.errExpired ∧
    (confirm_waitlist_booking now s wid).2.waitlists = s.waitlists ∧
    (confirm_waitlist_booking now s wid).2.waitlists.lookup wid =
      some entry ∧
    (confirm_waitlist_booking now s wid).2.bookings = s.bookings ∧
    confSlots (confirm_waitlist_booking now s wid).2 entry.conference =
      some conf.availableSlots ∧
    confQueue (confirm_waitlist_booking now s wid).2 entry.conference =
      some (conf.waitlist.erase wid ++ [wid]) := by
  have hs' : ¬ conf.availableSlots ≤ 0 := not_le.mpr hs
  simp only [confirm_waitlist_booking, hw, hc, hs', ht, hq, if_true,
    if_false, ite_false, ite_true, confSlots, confQueue, setConf_lookup,
    setConf_waitlists, setConf_bookings, if_pos rfl]
  simp [hw, hc]

/-- C5 witness: an entry enqueued at time `0`, confirmed at `7200`
(two hours later, as in the spec's scenario), on `c4State`. -/
theorem confirm_expired_requeues_entry_witness :
    (confirm_waitlist_booking 7200 c4State 5).1 = Resp.errExpired ∧
    confQueue (confirm_waitlist_booking 7200 c4State 5).2 "c" =
      some [5] :=
  ⟨(confirm_expired_requeues_entry 7200 c4State 5 ⟨"B", "c", 0⟩ ⟨1, [5]⟩
      (by decide) (by decide) (by decide) (by decide) (by decide)).1,
   (confirm_expired_requeues_entry 7200 c4State 5 ⟨"B", "c", 0⟩ ⟨1, [5]⟩
      (by decide) (by decide) (by decide) (by decide) (by decide)).2.2.2.2.2⟩

/-! ## C6: atomicity of error paths -/

/-- A state with two live waitlist entries `1`, `2` queued on conference
`"c"`, which has one open slot. -/
def c6State : AppState :=
  { users := ["A", "B"], conferences := [("c", ⟨1, [1, 2]⟩)],
    bookings := [],
    waitlists := [(1, ⟨"A", "c", 0⟩), (2, ⟨"B", "c", 0⟩)], nextId := 3 }

/-- C6 counterexample.  The ConfirmationExpired error path does mutate a
store: confirming entry `1` two hours after it was enqueued fails with
the expired error yet reorders conference `"c"`'s queue from `[1, 2]` to
`[2, 1]`, so not every operation that returns an error value leaves all
stores exactly as they were. -/
theorem expired_error_mutates_stores :
    isStoreError (confirm_waitlist_booking 7200 c6State 1).1 = true ∧
    (confirm_waitlist_booking 7200 c6State 1).1 = Resp.errExpired ∧
    (confirm_waitlist_booking 7200 c6State 1).2 ≠ c6State ∧
    confQueue (confirm_waitlist_booking 7200 c6State 1).2 "c" =
      some [2, 1] := by
  decide

/-- C6 amended.  Every operation that returns one of the error values
(`NotFound`, `DuplicateBooking`, `NoSlotsAvailable`) leaves all stores
exactly as they were, and so does the `None` fall-through of
`cancel_booking` on an unknown id; the one exception is
`ConfirmationExpired`, which leaves every store unchanged except that the
rejected entry's id moves to the tail of its conference's queue. -/
theorem failed_ops_leave_stores_unchanged (now : Int) (s : AppState) :
    (∀ n u, isStoreError (book_conference now s n u).1 = true →
      (book_conference now s n u).2 = s) ∧
    (∀ w, isStoreError (confirm_waitlist_booking now s w).1 = true →
      (confirm_waitlist_booking now s w).1 ≠ Resp.errExpired →
      (confirm_waitlist_booking now s w).2 = s) ∧
    (∀ w, (confirm_waitlist_booking now s w).1 = Resp.errExpired →
      ∃ entry conf, s.waitlists.lookup w = some entry ∧
        s.conferences.lookup entry.conference = some conf ∧
        (confirm_waitlist_booking now s w).2 =
          setConf s entry.conference
            { conf with waitlist := conf.waitlist.erase w ++ [w] }) ∧
    (∀ b, (cancel_booking s b).1 = Resp.noResponse →
      (cancel_booking s b).2 = s) := by
  refine ⟨?_, ?_, ?_, ?_⟩
  · intro n u h
    cases hc : s.conferences.lookup n with
    | none => simp [book_conference, hc]
    | some conf =>
      by_cases hu : u ∈ s.users
      · cases hf : s.bookings.find?
            (fun p => p.2.userId == u && p.2.conference == n) with
        | some p => simp [book_conference, hc, hu, hf]
        | none =>
          by_cases hs0 : conf.availableSlots ≤ 0
          · exfalso
            simp [book_conference, hc, hu, hf, hs0, isStoreError] at h
          · exfalso
            simp [book_conference, hc, hu, hf, hs0, isStoreError] at h
      · simp [book_conference, hc, hu]
  · intro w h hne
    cases hw : s.waitlists.lookup w with
    | none => simp [confirm_waitlist_booking, hw]
    | some entry =>
      cases hc : s.conferences.lookup entry.conference with
      | none => simp [confirm_waitlist_booking, hw, hc]
      | some conf =>
        by_cases hs0 : conf.availableSlots ≤ 0
        · simp [confirm_waitlist_booking, hw, hc, hs0]
        · by_cases ht : now - entry.timestamp > 3600
          · by_cases hq : w ∈ conf.waitlist
            · exfalso
              exact hne (by simp [confirm_waitlist_booking, hw, hc, hs0, ht, hq])
            · exfalso
              simp [confirm_waitlist_booking, hw, hc, hs0, ht, hq,
                isStoreError] at h
          · exfalso
            simp [confirm_waitlist_booking, hw, hc, hs0, ht,
              isStoreError] at h
  · intro w h
    cases hw : s.waitlists.lookup w with
    | none => exfalso; simp [confirm_waitlist_booking, hw] at h
    | some entry =>
      cases hc : s.conferences.lookup entry.conference with
      | none => exfalso; simp [confirm_waitlist_booking, hw, hc] at h
      | some conf =>
        by_cases hs0 : conf.availableSlots ≤ 0
        · exfalso; simp [confirm_waitlist_booking, hw, hc, hs0] at h
        · by_cases ht : now - entry.timestamp > 3600
          · by_cases hq : w ∈ conf.waitlist
            · exact ⟨entry, conf, rfl, hc,
                by simp [confirm_waitlist_booking, hw, hc, hs0, ht, hq]⟩
            · exfalso
              simp [confirm_waitlist_booking, hw, hc, hs0, ht, hq] at h
          · exfalso
            simp [confirm_waitlist_booking, hw, hc, hs0, ht] at h
  · intro b h
    cases hb : s.bookings.lookup b with
    | some booking =>
      cases hc : s.conferences.lookup booking.conference with
      | none => exfalso; simp [cancel_booking, hb, hc] at h
      | some conf =>
        by_cases hq : conf.waitlist = []
        · exfalso; simp [cancel_booking, hb, hc, hq] at h
        · exfalso; simp [cancel_booking, hb, hc, hq] at h
    | none =>
      cases hw : s.waitlists.lookup b with
      | some e => exfalso; simp [cancel_booking, hb, hw] at h
      | none => simp [cancel_booking, hb, hw]

/-- C6 witness: two error paths applied to the concrete `c6State`. -/
theorem failed_ops_leave_stores_unchanged_witness :
    (book_conference 0 c6State "missing" "A").2 = c6State ∧
    (cancel_booking c6State 99).2 = c6State :=
  ⟨(failed_ops_leave_stores_unchanged 0 c6State).1 "missing" "A" (by decide),
   (failed_ops_leave_stores_unchanged 0 c6State).2.2.2 99 (by decide)⟩

/-! ## Promotion-loop step lemmas -/

theorem processLoop_stale_step (now : Int) (confName : String) (wid : Nat)
    (rest : List Nat) (slots : Int) (bks : List (Nat × Booking))
    (wls : List (Nat × WaitlistEntry)) (nid : Nat) (e : WaitlistEntry)
    (hs : 0 < slots) (hl : wls.lookup wid = some e)
    (ht : now - e.timestamp > 3600) :
    processLoop now confName (wid :: rest) slots bks wls nid =
      processLoop now confName rest (slots - 1)
        (bks ++ [(nid, ⟨e.userId, confName, now⟩)]) (eraseKey wls wid)
        (nid + 1) := by
  simp [processLoop, hs, hl, ht]

theorem processLoop_fresh_head (now : Int) (confName : String) (wid : Nat)
    (rest : List Nat) (slots : Int) (bks : List (Nat × Booking))
    (wls : List (Nat × WaitlistEntry)) (nid : Nat) (e : WaitlistEntry)
    (hs : 0 < slots) (hl : wls.lookup wid = some e)
    (ht : ¬ now - e.timestamp > 3600) :
    processLoop now confName (wid :: rest) slots bks wls nid =
      (rest ++ [wid], slots, bks, wls, nid) := by
  simp [processLoop, hs, hl, ht]

theorem processLoop_orphan_head (now : Int) (confName : String) (wid : Nat)
    (rest : List Nat) (slots : Int) (bks : List (Nat × Booking))
    (wls : List (Nat × WaitlistEntry)) (nid : Nat)
    (hs : 0 < slots) (hl : wls.lookup wid = none) :
    processLoop now confName (wid :: rest) slots bks wls nid =
      (rest ++ [wid], slots, bks, wls, nid) := by
  simp [processLoop, hs, hl]

theorem processLoop_no_slots (now : Int) (confName : String)
    (q : List Nat) (slots : Int) (bks : List (Nat × Booking))
    (wls : List (Nat × WaitlistEntry)) (nid : Nat)
    (hs : ¬ 0 < slots) :
    processLoop now confName q slots bks wls nid =
      (q, slots, bks, wls, nid) := by
  cases q <;> simp [processLoop, hs]

/-! ## C7: automatic promotion -/

/-- C7.  One pass of the promotion loop, with a positive slot count and a
non-empty queue whose head id has a live entry `e`:
if `e` is stale (`now - enqueuedAt > 1 hour`) the head is promoted — a
booking for `e`'s user is appended under a fresh id, `available_slots`
goes down by one, the entry leaves the waitlist store — and the loop
continues on the remaining queue; if `e` is not stale it is pushed back
to the tail and the pass stops at once, leaving slots, bookings and the
waitlist store untouched, so no entry behind it is promoted in that pass
(third conjunct: the whole `process_waitlist` call then only rotates the
queue). -/
theorem promotion_pass_spec (now : Int) (confName : String) (wid : Nat)
    (rest : List Nat) (slots : Int) (bks : List (Nat × Booking))
    (wls : List (Nat × WaitlistEntry)) (nid : Nat) (e : WaitlistEntry)
    (hs : 0 < slots) (hl : wls.lookup wid = some e) :
    (now - e.timestamp > 3600 →
      processLoop now confName (wid :: rest) slots bks wls nid =
        processLoop now confName rest (slots - 1)
          (bks ++ [(nid, ⟨e.userId, confName, now⟩)]) (eraseKey wls wid)
          (nid + 1)) ∧
    (¬ now - e.timestamp > 3600 →
      processLoop now confName (wid :: rest) slots bks wls nid =
        (rest ++ [wid], slots, bks, wls, nid)) ∧
    (¬ now - e.timestamp > 3600 →
      ∀ s : AppState,
        s.conferences.lookup confName = some ⟨slots, wid :: rest⟩ →
        s.waitlists = wls →
        process_waitlist now s confName =
          setConf s confName ⟨slots, rest ++ [wid]⟩) := by
  refine ⟨?_, ?_, ?_⟩
  · intro ht
    exact processLoop_stale_step now confName wid rest slots bks wls nid e
      hs hl ht
  · intro ht
    exact processLoop_fresh_head now confName wid rest slots bks wls nid e
      hs hl ht
  · intro ht s hc hwls
    have hstep := processLoop_fresh_head now confName wid rest slots
      s.bookings s.waitlists s.nextId e hs (by rw [hwls]; exact hl) ht
    simp only [process_waitlist, hc, hstep]

/-- C7 witness: a fresh (2-minute-old) head entry `4` halts the pass and
rotates the queue. -/
theorem promotion_pass_spec_witness :
    processLoop 100 "c" [4, 9] 1 [] [(4, ⟨"B", "c", 0⟩)] 7 =
      ([9, 4], 1, [], [(4, ⟨"B", "c", 0⟩)], 7) :=
  (promotion_pass_spec 100 "c" 4 [9] 1 [] [(4, ⟨"B", "c", 0⟩)] 7
      ⟨"B", "c", 0⟩ (by decide) (by decide)).2.1 (by decide)

/-! ## C8: no duplicate booking -/

/-- B books the same exhausted conference a second time: a second
waitlist entry (id `2`), since the duplicate scan only covers bookings. -/
def dupRun1 : AppState := (book_conference 0 cap1AfterBookB "c" "B").2

/-- Cancel A's booking `0`: the view crashes after incrementing
`available_slots` (non-empty waitlist), leaving the booking behind. -/
def dupRun2 : AppState := (cancel_booking dupRun1 0).2

/-- Confirm B's first waitlist entry `1` (still inside its window): B's
first booking, id `3`. -/
def dupRun3 : AppState := (confirm_waitlist_booking 0 dupRun2 1).2

/-- Cancel A's still-present booking `0` again: crashes again, leaving
`available_slots = 1` once more. -/
def dupRun4 : AppState := (cancel_booking dupRun3 0).2

/-- Confirm B's second waitlist entry `2`: B's second booking, id `4`. -/
def dupRun5 : AppState := (confirm_waitlist_booking 0 dupRun4 2).2

/-- C8 counterexample.  The at-most-one-active-booking invariant is not
maintained: `confirm_waitlist_booking` never runs the duplicate scan, and
a user can hold several waitlist entries for one conference, so after the
`dupRun` request sequence (every step an API call on the capacity-1
conference) user B holds two active bookings for `"c"` at once. -/
theorem duplicate_active_bookings_reachable :
    (confirm_waitlist_booking 0 dupRun4 2).1 = Resp.confirmed 4 ∧
    bookingsForPair dupRun5 "B" "c" = 2 ∧
    ¬ bookingsForPair dupRun5 "B" "c" ≤ 1 := by
  decide

/-- C8 amended.  The `BookConference` part of the claim does hold: a call
for a pair that already has an active booking (the scan of
`bookings.values()` finds a match) fails with the duplicate error,
reporting the matched booking's id, and mutates nothing.  (The invariant
itself fails, because the waitlist-confirmation and promotion paths
create bookings without any duplicate check.) -/
theorem book_duplicate_rejected (now : Int) (s : AppState)
    (confName uid : String) (conf : Conference) (p : Nat × Booking)
    (hc : s.conferences.lookup confName = some conf)
    (hu : uid ∈ s.users)
    (hf : s.bookings.find?
      (fun q => q.2.userId == uid && q.2.conference == confName) = some p) :
    (book_conference now s confName uid).1 = Resp.errDuplicateBooking p.1 ∧
    (book_conference now s confName uid).2 = s := by
  simp [book_conference, hc, hu, hf]

/-- C8 witness: A books the conference again right after booking it. -/
theorem book_duplicate_rejected_witness :
    (book_conference 0 cap1AfterBookA "c" "A").1 =
      Resp.errDuplicateBooking 0 ∧
    (book_conference 0 cap1AfterBookA "c" "A").2 = cap1AfterBookA :=
  book_duplicate_rejected 0 cap1AfterBookA "c" "A" ⟨0, []⟩
    (0, ⟨"A", "c", 0⟩) (by decide) (by decide) (by decide)

/-! ## C9: orphaned queue ids -/

/-- A state whose conference queue holds an orphaned id `7` (no waitlist
store record) in front of a live, stale entry `8`, with one open slot. -/
def c9State : AppState :=
  { users := ["B"], conferences := [("c", ⟨1, [7, 8]⟩)],
    bookings := [], waitlists := [(8, ⟨"B", "c", 0⟩)], nextId := 0 }

/-- C9 counterexample.  The promotion loop does *not* skip an orphaned
id: popping orphan `7` takes the `else` branch, which appends it back and
breaks, so the stale, promotable entry `8` behind it is not promoted in
that pass even though a slot is free — the orphan blocks the pass,
contrary to the claim. -/
theorem orphan_head_blocks_pass :
    (process_waitlist 7200 c9State "c").bookings = [] ∧
    confQueue (process_waitlist 7200 c9State "c") "c" = some [8, 7] ∧
    confSlots (process_waitlist 7200 c9State "c") "c" = some 1 := by
  decide

/-- C9 amended.  Cancelling a waitlist entry deletes it from the waitlist
store only, leaving its id in the conference's queue as an orphan; the
promotion loop treats an id whose store lookup is missing like a
non-eligible entry — it pushes the orphan back to the tail and stops the
pass — so an orphaned id at the head *does* block promotion of the
entries behind it for that pass (it no longer heads the queue on the
next pass). -/
theorem cancel_waitlist_orphan_spec (s : AppState) (bid : Nat)
    (e : WaitlistEntry)
    (hb : s.bookings.lookup bid = none)
    (hw : s.waitlists.lookup bid = some e) :
    (cancel_booking s bid).1 = Resp.removedFromWaitlist ∧
    (cancel_booking s bid).2 =
      { s with waitlists := eraseKey s.waitlists bid } ∧
    (cancel_booking s bid).2.conferences = s.conferences ∧
    (∀ now confName rest slots bks wls nid, 0 < slots →
      wls.lookup bid = none →
      processLoop now confName (bid :: rest) slots bks wls nid =
        (rest ++ [bid], slots, bks, wls, nid)) := by
  refine ⟨?_, ?_, ?_, ?_⟩
  · simp [cancel_booking, hb, hw]
  · simp [cancel_booking, hb, hw]
  · simp [cancel_booking, hb, hw]
  · intro now confName rest slots bks wls nid hs hl
    exact processLoop_orphan_head now confName bid rest slots bks wls nid
      hs hl

/-- C9 witness: removing entry `8` of `c9State` from the waitlist leaves
the conference store — queue included — untouched. -/
theorem cancel_waitlist_orphan_spec_witness :
    (cancel_booking c9State 8).1 = Resp.removedFromWaitlist ∧
    (cancel_booking c9State 8).2.conferences = c9State.conferences :=
  ⟨(cancel_waitlist_orphan_spec c9State 8 ⟨"B", "c", 0⟩ (by decide)
      (by decide)).1,
   (cancel_waitlist_orphan_spec c9State 8 ⟨"B", "c", 0⟩ (by decide)
      (by decide)).2.2.1⟩

/-! ## C10: slots never go negative -/

/-- Every stored conference has a non-negative `available_slots`. -/
def slotsNonneg (s : AppState) : Prop :=
  ∀ p ∈ s.conferences, 0 ≤ p.2.availableSlots

instance (s : AppState) : Decidable (slotsNonneg s) := by
  unfold slotsNonneg
  infer_instance

theorem slotsNonneg_setConf (s : AppState) (name : String) (c : Conference)
    (h : slotsNonneg s) (hc : 0 ≤ c.availableSlots) :
    slotsNonneg (setConf s name c) := by
  intro p hp
  simp only [setConf, List.mem_map] at hp
  obtain ⟨q, hq, hpe⟩ := hp
  by_cases h1 : q.1 = name
  · rw [if_pos h1] at hpe
    rw [← hpe]
    exact hc
  · rw [if_neg h1] at hpe
    rw [← hpe]
    exact h q hq

theorem processLoop_slots_nonneg (now : Int) (confName : String) :
    ∀ (q : List Nat) (slots : Int) (bks : List (Nat × Booking))
      (wls : List (Nat × WaitlistEntry)) (nid : Nat), 0 ≤ slots →
      0 ≤ (processLoop now confName q slots bks wls nid).2.1 := by
  intro q
  induction q with
  | nil =>
    intro slots bks wls nid h
    simpa [processLoop] using h
  | cons wid rest ih =>
    intro slots bks wls nid h
    by_cases hs : 0 < slots
    · cases hl : wls.lookup wid with
      | some e =>
        by_cases ht : now - e.timestamp > 3600
        · rw [processLoop_stale_step now confName wid rest slots bks wls
            nid e hs hl ht]
          exact ih _ _ _ _ (by omega)
        · rw [processLoop_fresh_head now confName wid rest slots bks wls
            nid e hs hl ht]
          simpa using h
      | none =>
        rw [processLoop_orphan_head now confName wid rest slots bks wls
          nid hs hl]
        simpa using h
    · rw [processLoop_no_slots now confName (wid :: rest) slots bks wls
        nid hs]
      simpa using h

/-- C10.  Every decrement of `available_slots` in the source is guarded
by a strictly-positive check — the booking path, the
waitlist-confirmation path and the promotion loop all test
`available_slots > 0` first — and cancellation only increments, so every
core operation (including the crashing cancel, whose increment survives)
preserves non-negativity of every conference's slot count. -/
theorem slots_stay_nonneg (now : Int) (s : AppState) (h : slotsNonneg s) :
    (∀ confName uid, slotsNonneg (book_conference now s confName uid).2) ∧
    (∀ wid, slotsNonneg (confirm_waitlist_booking now s wid).2) ∧
    (∀ bid, slotsNonneg (cancel_booking s bid).2) ∧
    (∀ confName, slotsNonneg (process_waitlist now s confName)) := by
  refine ⟨?_, ?_, ?_, ?_⟩
  · intro confName uid
    cases hc : s.conferences.lookup confName with
    | none => simpa [book_conference, hc] using h
    | some conf =>
      have hconf : 0 ≤ conf.availableSlots :=
        h _ (mem_of_lookup_eq_some hc)
      by_cases hu : uid ∈ s.users
      · cases hf : s.bookings.find?
            (fun p => p.2.userId == uid && p.2.conference == confName) with
        | some p => simpa [book_conference, hc, hu, hf] using h
        | none =>
          by_cases hs0 : conf.availableSlots ≤ 0
          · simp only [book_conference, hc, hu, hf, hs0, if_true,
              ite_true, if_pos]
            exact slotsNonneg_setConf _ confName _ (fun p hp => h p hp)
              hconf
          · simp only [book_conference, hc, hu, hf, hs0, if_false,
              ite_false, if_neg, not_false_iff]
            exact slotsNonneg_setConf _ confName _ (fun p hp => h p hp)
              (by dsimp only; omega)
      · simpa [book_conference, hc, hu] using h
  · intro wid
    cases hw : s.waitlists.lookup wid with
    | none => simpa [confirm_waitlist_booking, hw] using h
    | some entry =>
      cases hc : s.conferences.lookup entry.conference with
      | none => simpa [confirm_waitlist_booking, hw, hc] using h
      | some conf =>
        have hconf : 0 ≤ conf.availableSlots :=
          h _ (mem_of_lookup_eq_some hc)
        by_cases hs0 : conf.availableSlots ≤ 0
        · simpa [confirm_waitlist_booking, hw, hc, hs0] using h
        · by_cases ht : now - entry.timestamp > 3600
          · by_cases hq : wid ∈ conf.waitlist
            · simp only [confirm_waitlist_booking, hw, hc, hs0, ht, hq,
                if_true, ite_true, if_false, ite_false, if_pos]
              exact slotsNonneg_setConf _ _ _ (fun p hp => h p hp) hconf
            · simpa [confirm_waitlist_booking, hw, hc, hs0, ht, hq] using h
          · simp only [confirm_waitlist_booking, hw, hc, hs0, ht,
              if_false, ite_false, if_neg, not_false_iff]
            exact slotsNonneg_setConf _ _ _ (fun p hp => h p hp)
              (by dsimp only; omega)
  · intro bid
    cases hb : s.bookings.lookup bid with
    | some booking =>
      cases hc : s.conferences.lookup booking.conference with
      | none => simpa [cancel_booking, hb, hc] using h
      | some conf =>
        have hconf : 0 ≤ conf.availableSlots :=
          h _ (mem_of_lookup_eq_some hc)
        by_cases hq : conf.waitlist = []
        · simp only [cancel_booking, hb, hc, hq, ne_eq, not_true_eq_false,
            if_false, ite_false]
          intro p hp
          exact slotsNonneg_setConf _ _ _ (fun r hr => h r hr)
            (by dsimp only; omega) p hp
        · simp only [cancel_booking, hb, hc, hq, ne_eq, not_false_iff,
            if_true, ite_true]
          exact slotsNonneg_setConf _ _ _ (fun r hr => h r hr)
            (by dsimp only; omega)
    | none =>
      cases hw : s.waitlists.lookup bid with
      | some e => simpa [cancel_booking, hb, hw] using h
      | none => simpa [cancel_booking, hb, hw] using h
  · intro confName
    cases hc : s.conferences.lookup confName with
    | none => simpa [process_waitlist, hc] using h
    | some conf =>
      have hconf : 0 ≤ conf.availableSlots :=
        h _ (mem_of_lookup_eq_some hc)
      simp only [process_waitlist, hc]
      exact slotsNonneg_setConf _ _ _ (fun r hr => h r hr)
        (processLoop_slots_nonneg now confName conf.waitlist
          conf.availableSlots s.bookings s.waitlists s.nextId hconf)

/-- C10 witness: the invariant, instantiated on the capacity-1 scenario
state, is preserved by a booking call. -/
theorem slots_stay_nonneg_witness :
    slotsNonneg (book_conference 0 cap1State "c" "A").2 :=
  (slots_stay_nonneg 0 cap1State (by decide)).1 "c" "A"

end ConfBooking
